import Mathlib

/-!
Verification of the `SharedProcess` coordinator from
`src/vs/platform/history/common/history.ts`.

The class is stateful asynchronous code (Electron main process).  We embed it
as a state machine: the coordinator's fields become a record, each method or
event-loop resumption becomes a pure state transition emitting a list of
observable effects, and the memoized promises (`_whenReady`, `_whenIpcReady`)
become explicit stage fields.  An `SPAction` trace models any interleaving of
method calls, worker signals and scheduler resumptions.
-/

/-- A JS process-environment object.  Association list; `\x7b...a, ...b\x7d`
spread is modelled as `a ++ b` with lookup taking the LAST binding. -/
abbrev EnvMap := List (String × String)

/-- Lookup in an `EnvMap`: the last binding of a key wins, matching JS object
spread where later keys override earlier ones. -/
def lookupEnv : EnvMap → String → Option String
  | [], _ => none
  | (k', v) :: rest, k =>
    match lookupEnv rest k with
    | some v' => some v'
    | none => if k' = k then some v else none

/-- Right-biased-first choice on optional values (`a` wins when present). -/
def orO (a b : Option String) : Option String :=
  match a with
  | some v => some v
  | none => b

/-- The fields of `IEnvironmentMainService` read by `createWindow`. -/
structure EnvServiceData where
  appRoot : String
  nodeCachedDataDir : Option String
  backupWorkspacesPath : String
  sharedIPCHandle : String
  args : List String
deriving DecidableEq

/-- The shared-process window: `BrowserWindow` with the observables the
coordinator reads (`id`, `isVisible()`, `webContents.isDestroyed()`). -/
structure BrowserWindowM where
  id : Nat
  visible : Bool
  webContentsDestroyed : Bool
deriving DecidableEq

/-- The `ISharedProcessConfiguration` payload built in `createWindow`. -/
structure ISharedProcessConfiguration where
  machineId : String
  windowId : Nat
  appRoot : String
  nodeCachedDataDir : Option String
  backupWorkspacesPath : String
  userEnv : EnvMap
  sharedIPCHandle : String
  args : List String
  logLevel : Nat
deriving DecidableEq

/-- Progress of the memoized `_whenIpcReady` async body:
waiting on the spawn barrier, waiting on the `ipc-ready` signal, or resolved. -/
inductive IpcStage
  | waitingSpawn
  | waitingIpcSignal
  | done
deriving DecidableEq

/-- State of one `SharedProcess` coordinator instance.  Promise fields of the
class become stage/flag fields; counters record side-effect occurrences so
that "exactly once" properties are statable. -/
structure SharedProcess where
  machineId : String
  userEnv : EnvMap
  envService : EnvServiceData
  logLevel : Nat
  /-- `whenSpawnedBarrier`: `true` once `open()` was called. -/
  barrierOpened : Bool
  /-- `_whenReady !== undefined`: the once-listener for `init-done` is registered. -/
  whenReadyStarted : Bool
  /-- the `init-done` signal resolved `_whenReady`. -/
  initDoneObserved : Bool
  /-- `_whenIpcReady`: `none` = promise not yet created. -/
  ipcStage : Option IpcStage
  /-- the `ipc-ready` signal was received by the registered once-listener. -/
  ipcSignalObserved : Bool
  /-- `this.window`. -/
  window : Option BrowserWindowM
  /-- `this.windowCloseListener !== undefined`. -/
  windowCloseListener : Bool
  nextWindowId : Nat
  /-- number of times `createWindow` ran. -/
  createWindowCount : Nat
  /-- number of times `registerWindowListeners` attached listeners. -/
  registerWindowListenersCount : Nat
  /-- the configuration payload captured when the window was created. -/
  configAtCreation : Option ISharedProcessConfiguration
  /-- a `setTimeout` close from `onWillShutdown` is scheduled but not yet run. -/
  pendingClose : Bool
  nextPortId : Nat
  /-- channel requests awaiting `whenReady()`. -/
  reqWaitingReady : Nat
  /-- channel requests awaiting `whenIpcReady` inside `connect()`. -/
  reqWaitingIpc : Nat
  /-- ports posted back to requesters. -/
  portsPosted : Nat
deriving DecidableEq

/-- Observable side effects of the coordinator. -/
inductive Effect
  | createWindowEff (windowId : Nat)
  | loadURLEff (config : ISharedProcessConfiguration)
  | registerCloseListenerEff
  | registerCrashListenersEff
  | sendExitEff
  | removeCloseListenerEff
  | scheduleCloseEff
  | closeCallEff
  | firePortEff (port : Nat)
deriving DecidableEq

/-- The constructor: all promises unset, no window, barrier closed. -/
def initState (machineId : String) (userEnv : EnvMap)
    (envService : EnvServiceData) (logLevel : Nat) : SharedProcess :=
  { machineId := machineId
    userEnv := userEnv
    envService := envService
    logLevel := logLevel
    barrierOpened := false
    whenReadyStarted := false
    initDoneObserved := false
    ipcStage := none
    ipcSignalObserved := false
    window := none
    windowCloseListener := false
    nextWindowId := 1
    createWindowCount := 0
    registerWindowListenersCount := 0
    configAtCreation := none
    pendingClose := false
    nextPortId := 0
    reqWaitingReady := 0
    reqWaitingIpc := 0
    portsPosted := 0 }

/-- `createWindow`: unconditionally constructs a new hidden `BrowserWindow`,
assigns `this.window`, builds the `ISharedProcessConfiguration` from the
current fields and loads the URL with it.  NOTE: the source contains no
already-created guard. -/
def SharedProcess.createWindow (s : SharedProcess) :
    SharedProcess × List Effect :=
  let w : BrowserWindowM :=
    { id := s.nextWindowId, visible := false, webContentsDestroyed := false }
  let config : ISharedProcessConfiguration :=
    { machineId := s.machineId
      windowId := w.id
      appRoot := s.envService.appRoot
      nodeCachedDataDir := s.envService.nodeCachedDataDir
      backupWorkspacesPath := s.envService.backupWorkspacesPath
      userEnv := s.userEnv
      sharedIPCHandle := s.envService.sharedIPCHandle
      args := s.envService.args
      logLevel := s.logLevel }
  ({ s with
      window := some w
      nextWindowId := s.nextWindowId + 1
      createWindowCount := s.createWindowCount + 1
      configAtCreation := some config },
   [Effect.createWindowEff w.id, Effect.loadURLEff config])

/-- `registerWindowListeners`: returns early when `this.window` is unset,
otherwise attaches the close-veto listener and the crash/unresponsive/fail
listeners. -/
def SharedProcess.registerWindowListeners (s : SharedProcess) :
    SharedProcess × List Effect :=
  match s.window with
  | none => (s, [])
  | some _ =>
    ({ s with
        windowCloseListener := true
        registerWindowListenersCount := s.registerWindowListenersCount + 1 },
     [Effect.registerCloseListenerEff, Effect.registerCrashListenersEff])

/-- Accessing the `whenIpcReady` getter: on first access the async body is
created (stage `waitingSpawn`, suspended on `whenSpawnedBarrier.wait()`);
every later access returns the memoized promise and changes nothing. -/
def SharedProcess.whenIpcReadyAccess (s : SharedProcess) :
    SharedProcess × List Effect :=
  match s.ipcStage with
  | none => ({ s with ipcStage := some IpcStage.waitingSpawn }, [])
  | some _ => (s, [])

/-- Scheduler resumption of the `whenIpcReady` body once the barrier is open:
`createWindow()`, then `registerWindowListeners()`, then suspend on the
`ipc-ready` once-listener. -/
def SharedProcess.resumeSpawned (s : SharedProcess) :
    SharedProcess × List Effect :=
  if s.ipcStage = some IpcStage.waitingSpawn ∧ s.barrierOpened = true then
    let p1 := s.createWindow
    let p2 := p1.1.registerWindowListeners
    ({ p2.1 with ipcStage := some IpcStage.waitingIpcSignal }, p1.2 ++ p2.2)
  else (s, [])

/-- The worker's `ipc-ready` signal: consumed by the once-listener registered
in the `whenIpcReady` body; dropped when no such listener is pending. -/
def SharedProcess.ipcReadySignal (s : SharedProcess) :
    SharedProcess × List Effect :=
  if s.ipcStage = some IpcStage.waitingIpcSignal then
    ({ s with ipcStage := some IpcStage.done, ipcSignalObserved := true }, [])
  else (s, [])

/-- `whenReady()`: on first call registers the `init-done` once-listener and
memoizes `_whenReady`; no other field is touched and no effect is emitted. -/
def SharedProcess.whenReadyAccess (s : SharedProcess) :
    SharedProcess × List Effect :=
  ({ s with whenReadyStarted := true }, [])

/-- The worker's `init-done` signal: resolves `_whenReady` when its
once-listener is registered; lost otherwise. -/
def SharedProcess.initDoneSignal (s : SharedProcess) :
    SharedProcess × List Effect :=
  if s.whenReadyStarted = true then
    ({ s with initDoneObserved := true }, [])
  else (s, [])

/-- `spawn(userEnv)`: merges the overlay into the stored environment
(`\x7b...this.userEnv, ...userEnv\x7d`, overlay wins) and opens the barrier. -/
def SharedProcess.spawn (s : SharedProcess) (overlay : EnvMap) :
    SharedProcess × List Effect :=
  ({ s with userEnv := s.userEnv ++ overlay, barrierOpened := true }, [])

/-- `onWillShutdown`: returns at once when no window was ever created; else
sends the exit signal to live web contents, removes the close-veto listener
when present, and schedules the deferred `setTimeout` close.  The window
handle is NOT cleared here but inside the deferred callback. -/
def SharedProcess.onWillShutdown (s : SharedProcess) :
    SharedProcess × List Effect :=
  match s.window with
  | none => (s, [])
  | some w =>
    let e1 := if w.webContentsDestroyed then [] else [Effect.sendExitEff]
    let p2 :=
      if s.windowCloseListener then
        ({ s with windowCloseListener := false },
         [Effect.removeCloseListenerEff])
      else (s, ([] : List Effect))
    ({ p2.1 with pendingClose := true }, e1 ++ p2.2 ++ [Effect.scheduleCloseEff])

/-- The `window.close()` call inside the deferred callback; it may throw when
electron is already shutting down. -/
def windowCloseCall (closeThrows : Bool) : Except String Unit :=
  if closeThrows then Except.error "electron is already shutting down"
  else Except.ok Unit.unit

/-- The deferred `setTimeout` body from `onWillShutdown`:
`try \x7b window.close() \x7d catch \x7b /* ignore */ \x7d; this.window = undefined`.
The catch swallows the close error, so the result is always `Except.ok`. -/
def SharedProcess.runDeferredClose (s : SharedProcess) (closeThrows : Bool) :
    Except String (SharedProcess × List Effect) :=
  if s.pendingClose then
    (match windowCloseCall closeThrows with
     | Except.ok _ => Except.ok Unit.unit
     | Except.error _ => Except.ok Unit.unit).map
      (fun _ =>
        ({ s with window := none, pendingClose := false },
         [Effect.closeCallEff]))
  else Except.ok (s, [])

/-- The error message of `connect()`'s liveness assertion. -/
def connectErrorMessage : String :=
  "Cannot connect to shared process window because the window is closed or destroyed"

/-- The part of `connect()` after `await this.whenIpcReady`: assert the window
is present with live web contents, else throw; on success hand out a fresh
message port (`connectMessagePort` creates a new channel per call). -/
def SharedProcess.connectAfterReady (s : SharedProcess) :
    Except String (Nat × SharedProcess) :=
  match s.window with
  | none => Except.error connectErrorMessage
  | some w =>
    if w.webContentsDestroyed then Except.error connectErrorMessage
    else Except.ok (s.nextPortId, { s with nextPortId := s.nextPortId + 1 })

/-- `connect()` as observed by its caller: `none` while `await this.whenIpcReady`
has not resolved (the call has not returned), `some` outcome once it has. -/
def SharedProcess.connectPoll (s : SharedProcess) :
    Option (Except String (Nat × SharedProcess)) :=
  if s.ipcStage = some IpcStage.done then some s.connectAfterReady else none

/-- Arrival of a `vscode:createSharedProcessMessageChannel` request: the
handler body calls `whenReady()` (registering its listener on first use) and
suspends on it. -/
def SharedProcess.channelRequest (s : SharedProcess) :
    SharedProcess × List Effect :=
  ({ s with whenReadyStarted := true, reqWaitingReady := s.reqWaitingReady + 1 },
   [])

/-- Resumption of a channel-request handler once `whenReady()` resolved: the
handler proceeds into `connect()`, which touches the `whenIpcReady` getter and
suspends on it. -/
def SharedProcess.resumeRequestReady (s : SharedProcess) :
    SharedProcess × List Effect :=
  if s.initDoneObserved = true ∧ 0 < s.reqWaitingReady then
    let p1 := s.whenIpcReadyAccess
    ({ p1.1 with
        reqWaitingReady := p1.1.reqWaitingReady - 1
        reqWaitingIpc := p1.1.reqWaitingIpc + 1 },
     p1.2)
  else (s, [])

/-- Resumption of a channel-request handler once `whenIpcReady` resolved:
finish `connect()` and post the resulting port back to the requester. -/
def SharedProcess.resumeRequestConnect (s : SharedProcess) :
    SharedProcess × List Effect :=
  if s.ipcStage = some IpcStage.done ∧ 0 < s.reqWaitingIpc then
    match s.connectAfterReady with
    | Except.ok (port, s1) =>
      ({ s1 with
          reqWaitingIpc := s1.reqWaitingIpc - 1
          portsPosted := s1.portsPosted + 1 },
       [Effect.firePortEff port])
    | Except.error _ => ({ s with reqWaitingIpc := s.reqWaitingIpc - 1 }, [])
  else (s, [])

/-- External stimuli and scheduler resumptions driving the coordinator. -/
inductive SPAction
  | access
  | accessReady
  | spawnA (overlay : EnvMap)
  | resume
  | ipcReady
  | initDone
  | shutdown
  | deferredClose (closeThrows : Bool)
  | request
  | requestReady
  | requestConnect
deriving DecidableEq

/-- One step of the coordinator. -/
def step (s : SharedProcess) (a : SPAction) : SharedProcess × List Effect :=
  match a with
  | SPAction.access => s.whenIpcReadyAccess
  | SPAction.accessReady => s.whenReadyAccess
  | SPAction.spawnA o => s.spawn o
  | SPAction.resume => s.resumeSpawned
  | SPAction.ipcReady => s.ipcReadySignal
  | SPAction.initDone => s.initDoneSignal
  | SPAction.shutdown => s.onWillShutdown
  | SPAction.deferredClose t =>
    match s.runDeferredClose t with
    | Except.ok p => p
    | Except.error _ => (s, [])
  | SPAction.request => s.channelRequest
  | SPAction.requestReady => s.resumeRequestReady
  | SPAction.requestConnect => s.resumeRequestConnect

/-- Run a trace of actions, accumulating effects in order. -/
def run (s : SharedProcess) : List SPAction → SharedProcess × List Effect
  | [] => (s, [])
  | a :: rest =>
    let p1 := step s a
    let p2 := run p1.1 rest
    (p2.1, p1.2 ++ p2.2)

/-- States reachable from a freshly constructed coordinator by any trace. -/
inductive Reachable : SharedProcess → Prop
  | init (machineId : String) (userEnv : EnvMap) (envService : EnvServiceData)
      (logLevel : Nat) :
      Reachable (initState machineId userEnv envService logLevel)
  | step (s : SharedProcess) (a : SPAction) :
      Reachable s → Reachable (step s a).1

/-- Whether the `whenIpcReady` body has passed the creation of the window. -/
def stageCreated : Option IpcStage → Bool
  | some IpcStage.waitingIpcSignal => true
  | some IpcStage.done => true
  | _ => false

/-- The inductive invariant of the coordinator: side-effect counters equal
the stage indicator, the stage only passes window creation with the barrier
open, the `ipc-ready` observation coincides with the resolved stage, and any
request past `whenReady()` implies the `init-done` signal was observed. -/
def SPInv (s : SharedProcess) : Prop :=
  (s.createWindowCount = if stageCreated s.ipcStage then 1 else 0)
  ∧ (s.registerWindowListenersCount = if stageCreated s.ipcStage then 1 else 0)
  ∧ (stageCreated s.ipcStage = true → s.barrierOpened = true)
  ∧ (s.ipcSignalObserved = true ↔ s.ipcStage = some IpcStage.done)
  ∧ ((0 < s.reqWaitingIpc ∨ 0 < s.portsPosted) → s.initDoneObserved = true)

theorem spInv_init (machineId : String) (userEnv : EnvMap)
    (envService : EnvServiceData) (logLevel : Nat) :
    SPInv (initState machineId userEnv envService logLevel) := by
  simp [SPInv, initState, stageCreated]

/-- A successful `connect()` hands out the current fresh port id and only
bumps the port counter. -/
theorem connectAfterReady_ok_state (s s1 : SharedProcess) (port : Nat)
    (h : s.connectAfterReady = Except.ok (port, s1)) :
    port = s.nextPortId ∧ s1 = { s with nextPortId := s.nextPortId + 1 } := by
  simp only [SharedProcess.connectAfterReady] at h
  cases hw : s.window with
  | none => rw [hw] at h; exact absurd h (by simp)
  | some w =>
    rw [hw] at h
    by_cases hdd : w.webContentsDestroyed
    · simp [hdd] at h
    · simp [hdd] at h
      exact ⟨h.1.symm, h.2.symm⟩

theorem spInv_step (s : SharedProcess) (a : SPAction) (h : SPInv s) :
    SPInv (step s a).1 := by
  obtain ⟨h1, h2, h3, h4, h5⟩ := h
  cases a with
  | access =>
    simp only [step, SharedProcess.whenIpcReadyAccess]
    cases hst : s.ipcStage with
    | none =>
      refine ⟨?_, ?_, ?_, ?_, ?_⟩ <;>
        simp_all [SPInv, stageCreated]
    | some st => exact ⟨h1, h2, h3, h4, h5⟩
  | accessReady =>
    simp only [step, SharedProcess.whenReadyAccess]
    exact ⟨h1, h2, h3, h4, h5⟩
  | spawnA o =>
    simp only [step, SharedProcess.spawn]
    exact ⟨h1, h2, fun _ => rfl, h4, h5⟩
  | resume =>
    simp only [step, SharedProcess.resumeSpawned]
    split
    · rename_i hc
      obtain ⟨hst, hb⟩ := hc
      simp_all [SharedProcess.createWindow, SharedProcess.registerWindowListeners,
        SPInv, stageCreated]
    · exact ⟨h1, h2, h3, h4, h5⟩
  | ipcReady =>
    simp only [step, SharedProcess.ipcReadySignal]
    split
    · rename_i hst
      simp_all [SPInv, stageCreated]
    · exact ⟨h1, h2, h3, h4, h5⟩
  | initDone =>
    simp only [step, SharedProcess.initDoneSignal]
    split
    · exact ⟨h1, h2, h3, h4, fun _ => rfl⟩
    · exact ⟨h1, h2, h3, h4, h5⟩
  | shutdown =>
    cases hw : s.window with
    | none =>
      simp only [step, SharedProcess.onWillShutdown, hw]
      exact ⟨h1, h2, h3, h4, h5⟩
    | some w =>
      by_cases hl : s.windowCloseListener <;>
        simp_all [step, SharedProcess.onWillShutdown, SPInv, stageCreated]
  | deferredClose t =>
    by_cases hp : s.pendingClose <;> cases t <;>
      simp_all [step, SharedProcess.runDeferredClose, windowCloseCall,
        Except.map, SPInv, stageCreated]
  | request =>
    simp only [step, SharedProcess.channelRequest]
    exact ⟨h1, h2, h3, h4, h5⟩
  | requestReady =>
    simp only [step, SharedProcess.resumeRequestReady]
    split
    · rename_i hc
      obtain ⟨hd, hr⟩ := hc
      simp only [SharedProcess.whenIpcReadyAccess]
      cases hst : s.ipcStage with
      | none => refine ⟨?_, ?_, ?_, ?_, ?_⟩ <;> simp_all [SPInv, stageCreated]
      | some st => exact ⟨h1, h2, h3, h4, fun _ => hd⟩
    · exact ⟨h1, h2, h3, h4, h5⟩
  | requestConnect =>
    simp only [step, SharedProcess.resumeRequestConnect]
    split
    · rename_i hc
      obtain ⟨hst, hr⟩ := hc
      have hd : s.initDoneObserved = true := h5 (Or.inl hr)
      cases hcon : s.connectAfterReady with
      | ok p =>
        obtain ⟨port, s1⟩ := p
        obtain ⟨hp, hs⟩ := connectAfterReady_ok_state s s1 port hcon
        subst hs
        exact ⟨h1, h2, h3, h4, fun _ => hd⟩
      | error e => exact ⟨h1, h2, h3, h4, fun _ => hd⟩
    · exact ⟨h1, h2, h3, h4, h5⟩

theorem spInv_of_reachable (s : SharedProcess) (h : Reachable s) : SPInv s := by
  induction h with
  | init machineId userEnv envService logLevel =>
    exact spInv_init machineId userEnv envService logLevel
  | step s a _ ih => exact spInv_step s a ih

theorem reachable_run (s : SharedProcess) (acts : List SPAction)
    (h : Reachable s) : Reachable (run s acts).1 := by
  induction acts generalizing s with
  | nil => exact h
  | cons a rest ih =>
    simp only [run]
    exact ih (step s a).1 (Reachable.step s a h)

/-- Appending environment overlays is looked up right-biased: the overlay
appended last wins on key conflicts, exactly like JS object spread. -/
theorem lookupEnv_append (a b : EnvMap) (k : String) :
    lookupEnv (a ++ b) k = orO (lookupEnv b k) (lookupEnv a k) := by
  induction a with
  | nil => cases hb : lookupEnv b k <;> simp [lookupEnv, orO, hb]
  | cons p rest ih =>
    obtain ⟨k', v⟩ := p
    simp only [List.cons_append, lookupEnv]
    rw [List.append_eq, ih]
    cases hb : lookupEnv b k <;> cases hr : lookupEnv rest k <;>
      simp [orO, hb, hr]

/-- Modelled from the spec: the `Barrier` class from `vs/base/common/async`
(imported by the coordinator but not part of this repository's sources).
Per the spec it is a one-shot readiness gate: `open()` sets `opened = true`
permanently and releases all pending waiters; `wait()` registers a waiter
that is released immediately when the gate is already open.  Waiters are
named by ids so that "released exactly once" is statable. -/
structure Barrier where
  opened : Bool
  pending : List Nat
  released : List Nat
deriving DecidableEq

/-- `Barrier.open()`: opens the gate and releases every pending waiter. -/
def Barrier.openB (b : Barrier) : Barrier :=
  { opened := true, pending := [], released := b.released ++ b.pending }

/-- `Barrier.wait()`: a waiter on an open gate resolves immediately, else it
queues until `open()`. -/
def Barrier.waitB (b : Barrier) (id : Nat) : Barrier :=
  if b.opened then { b with released := b.released ++ [id] }
  else { b with pending := b.pending ++ [id] }

/-- A fresh barrier: closed, no waiters. -/
def initBarrier : Barrier := { opened := false, pending := [], released := [] }

/-- Operations applied to a barrier over its lifetime. -/
inductive BOp
  | openOp
  | waitOp (id : Nat)
deriving DecidableEq

/-- Run a sequence of barrier operations. -/
def runB (b : Barrier) : List BOp → Barrier
  | [] => b
  | BOp.openOp :: rest => runB b.openB rest
  | BOp.waitOp id :: rest => runB (b.waitB id) rest

/-- `open()` applied `n` times in a row. -/
def openNTimes : Nat → Barrier → Barrier
  | 0, b => b
  | n + 1, b => (openNTimes n b).openB

/-- Number of `wait` registrations for a given waiter id in an op sequence. -/
def countWait (id : Nat) : List BOp → Nat
  | [] => 0
  | BOp.openOp :: rest => countWait id rest
  | BOp.waitOp j :: rest => (if j = id then 1 else 0) + countWait id rest

/-- Occurrences of an id in a waiter list. -/
def countN (id : Nat) : List Nat → Nat
  | [] => 0
  | j :: rest => (if j = id then 1 else 0) + countN id rest

theorem countN_append (id : Nat) (l1 l2 : List Nat) :
    countN id (l1 ++ l2) = countN id l1 + countN id l2 := by
  induction l1 with
  | nil => simp [countN]
  | cons j rest ih => simp [countN, ih]; omega

theorem openB_openB (b : Barrier) : b.openB.openB = b.openB := by
  simp [Barrier.openB]

theorem openNTimes_succ (b : Barrier) (n : Nat) :
    openNTimes (n + 1) b = b.openB := by
  induction n with
  | zero => rfl
  | succ m ih => simp [openNTimes] at ih ⊢; rw [ih, openB_openB]

theorem runB_opened_mono (ops : List BOp) (b : Barrier)
    (h : b.opened = true) : (runB b ops).opened = true := by
  induction ops generalizing b with
  | nil => exact h
  | cons op rest ih =>
    cases op with
    | openOp => exact ih b.openB rfl
    | waitOp id =>
      refine ih (b.waitB id) ?_
      simp [Barrier.waitB, h]

theorem runB_opened_pending (ops : List BOp) (b : Barrier)
    (h : b.opened = true → b.pending = []) :
    (runB b ops).opened = true → (runB b ops).pending = [] := by
  induction ops generalizing b with
  | nil => exact h
  | cons op rest ih =>
    cases op with
    | openOp => exact ih b.openB (fun _ => rfl)
    | waitOp id =>
      refine ih (b.waitB id) ?_
      intro ho
      simp only [Barrier.waitB] at ho ⊢
      by_cases hb : b.opened = true
      · simp [hb, h hb]
      · simp [hb] at ho ⊢

theorem runB_count (ops : List BOp) (b : Barrier) (id : Nat) :
    countN id (runB b ops).pending + countN id (runB b ops).released
      = countN id b.pending + countN id b.released + countWait id ops := by
  induction ops generalizing b with
  | nil => simp [runB, countWait]
  | cons op rest ih =>
    cases op with
    | openOp =>
      rw [runB, ih b.openB]
      simp [Barrier.openB, countN, countN_append, countWait]
      omega
    | waitOp j =>
      rw [runB, ih (b.waitB j)]
      simp only [Barrier.waitB]
      by_cases hb : b.opened = true <;>
        simp [hb, countN_append, countN, countWait] <;> omega

/-- A concrete environment-service record used in witnesses. -/
def envSvc0 : EnvServiceData :=
  { appRoot := "/app"
    nodeCachedDataDir := none
    backupWorkspacesPath := "/backup"
    sharedIPCHandle := "ipc-handle"
    args := [] }

/-- A freshly constructed coordinator used in witnesses. -/
def sp0 : SharedProcess := initState "machine" [] envSvc0 0

/-- A live (non-destroyed) window used in witnesses. -/
def winLive : BrowserWindowM :=
  { id := 1, visible := false, webContentsDestroyed := false }

/-- A window with destroyed web contents used in witnesses. -/
def winDead : BrowserWindowM :=
  { id := 1, visible := false, webContentsDestroyed := true }

/-- C1: Over every trace, `createWindow` and `registerWindowListeners` have
run exactly once when the memoized `whenIpcReady` body has passed window
creation and zero times before (so never more than once, however many
accesses race), and any access after the first is a pure read of the
memoized promise: it changes no state and performs no side effect. -/
theorem whenIpcReady_creates_host_exactly_once (s : SharedProcess)
    (h : Reachable s) :
    s.createWindowCount = (if stageCreated s.ipcStage then 1 else 0)
    ∧ s.registerWindowListenersCount
        = (if stageCreated s.ipcStage then 1 else 0)
    ∧ (s.ipcStage ≠ none → step s SPAction.access = (s, [])) := by
  obtain ⟨h1, h2, _, _, _⟩ := spInv_of_reachable s h
  refine ⟨h1, h2, ?_⟩
  intro hne
  cases hst : s.ipcStage with
  | none => exact absurd hst hne
  | some st => simp [step, SharedProcess.whenIpcReadyAccess, hst]

/-- The reachable state used as C1 witness: one access, one spawn, one
scheduler resumption. -/
def c1state : SharedProcess :=
  (run sp0 [SPAction.access, SPAction.spawnA [], SPAction.resume]).1

theorem whenIpcReady_creates_host_exactly_once_witness :
    c1state.createWindowCount = (if stageCreated c1state.ipcStage then 1 else 0)
    ∧ c1state.registerWindowListenersCount
        = (if stageCreated c1state.ipcStage then 1 else 0)
    ∧ (c1state.ipcStage ≠ none → step c1state SPAction.access = (c1state, [])) :=
  whenIpcReady_creates_host_exactly_once c1state
    (reachable_run sp0 [SPAction.access, SPAction.spawnA [], SPAction.resume]
      (Reachable.init "machine" [] envSvc0 0))

/-- C2: In every reachable state, `connect()` has returned (its poll is
`some`) exactly when both the spawn barrier has been opened and the
`ipc-ready` signal has been observed; so no channel is handed out before
both, and once both have occurred the memoized promise is resolved and the
call proceeds immediately without re-waiting. -/
theorem connect_gated_on_spawn_and_ipcReady (s : SharedProcess)
    (h : Reachable s) :
    s.connectPoll.isSome = true
      ↔ (s.barrierOpened = true ∧ s.ipcSignalObserved = true) := by
  obtain ⟨_, _, h3, h4, _⟩ := spInv_of_reachable s h
  constructor
  · intro hp
    have hd : s.ipcStage = some IpcStage.done := by
      by_contra hne
      simp [SharedProcess.connectPoll, hne] at hp
    exact ⟨h3 (by simp [stageCreated, hd]), h4.mpr hd⟩
  · intro hbo
    have hd := h4.mp hbo.2
    simp [SharedProcess.connectPoll, hd]

/-- The reachable state used as C2 witness: barrier opened, window created,
`ipc-ready` observed. -/
def c2state : SharedProcess :=
  (run sp0 [SPAction.access, SPAction.spawnA [], SPAction.resume,
    SPAction.ipcReady]).1

theorem connect_gated_on_spawn_and_ipcReady_witness :
    c2state.connectPoll.isSome = true
      ↔ (c2state.barrierOpened = true ∧ c2state.ipcSignalObserved = true) :=
  connect_gated_on_spawn_and_ipcReady c2state
    (reachable_run sp0 [SPAction.access, SPAction.spawnA [], SPAction.resume,
      SPAction.ipcReady] (Reachable.init "machine" [] envSvc0 0))

/-- C3: After the ipc-ready wait, `connect()` throws the
closed-or-destroyed error when the window handle is absent or its web
contents are destroyed, and otherwise returns a fresh message port (two
successive connects hand out distinct ports). -/
theorem connect_asserts_live_window (s : SharedProcess) :
    (s.window = none →
      s.connectAfterReady = Except.error connectErrorMessage)
    ∧ (∀ w, s.window = some w → w.webContentsDestroyed = true →
        s.connectAfterReady = Except.error connectErrorMessage)
    ∧ (∀ w, s.window = some w → w.webContentsDestroyed = false →
        s.connectAfterReady =
          Except.ok (s.nextPortId, { s with nextPortId := s.nextPortId + 1 }))
    ∧ (∀ p1 s1 p2 s2, s.connectAfterReady = Except.ok (p1, s1) →
        s1.connectAfterReady = Except.ok (p2, s2) → p1 ≠ p2) := by
  refine ⟨?_, ?_, ?_, ?_⟩
  · intro hw; simp [SharedProcess.connectAfterReady, hw]
  · intro w hw hd; simp [SharedProcess.connectAfterReady, hw, hd]
  · intro w hw hd; simp [SharedProcess.connectAfterReady, hw, hd]
  · intro p1 s1 p2 s2 hc1 hc2
    obtain ⟨hp1, hs1⟩ := connectAfterReady_ok_state s s1 p1 hc1
    obtain ⟨hp2, hs2⟩ := connectAfterReady_ok_state s1 s2 p2 hc2
    subst hs1
    simp at hp2
    omega

theorem connect_asserts_live_window_witness :
    sp0.connectAfterReady = Except.error connectErrorMessage
    ∧ ({ sp0 with window := some winDead }).connectAfterReady
        = Except.error connectErrorMessage
    ∧ ({ sp0 with window := some winLive }).connectAfterReady
        = Except.ok (0, { sp0 with window := some winLive, nextPortId := 1 }) :=
  ⟨(connect_asserts_live_window sp0).1 rfl,
   (connect_asserts_live_window { sp0 with window := some winDead }).2.1
     winDead rfl rfl,
   (connect_asserts_live_window { sp0 with window := some winLive }).2.2.1
     winLive rfl rfl⟩

/-- C8: A shutdown trigger on a coordinator whose host was never created
(window handle absent) is a complete no-op: state unchanged, no effects,
no error. -/
theorem shutdown_no_window_noop (s : SharedProcess) (h : s.window = none) :
    s.onWillShutdown = (s, []) := by
  simp [SharedProcess.onWillShutdown, h]

theorem shutdown_no_window_noop_witness : sp0.onWillShutdown = (sp0, []) :=
  shutdown_no_window_noop sp0 rfl

/-- C4: On shutdown with a live, non-destroyed window whose close-veto
listener is attached, the handler emits exit-signal, listener-removal and
close-scheduling in that order — the veto removal strictly precedes the
close call, which happens only in the deferred phase — and the deferred
close returns normally for both outcomes of `window.close()` (the catch
swallows the error), clearing the window handle either way. -/
theorem shutdown_removes_veto_before_close (s : SharedProcess)
    (w : BrowserWindowM) (hw : s.window = some w)
    (hd : w.webContentsDestroyed = false) (hl : s.windowCloseListener = true)
    (closeThrows : Bool) :
    s.onWillShutdown.2 =
      [Effect.sendExitEff, Effect.removeCloseListenerEff,
       Effect.scheduleCloseEff]
    ∧ (∃ s2, s.onWillShutdown.1.runDeferredClose closeThrows =
          Except.ok (s2, [Effect.closeCallEff])
        ∧ s2.window = none ∧ s2.windowCloseListener = false) := by
  constructor
  · simp [SharedProcess.onWillShutdown, hw, hd, hl]
  · refine ⟨{ s with windowCloseListener := false, pendingClose := false, window := none }, ?_, rfl, rfl⟩
    cases closeThrows <;>
      simp [SharedProcess.onWillShutdown, hw, hd, hl,
        SharedProcess.runDeferredClose, windowCloseCall, Except.map]

/-- The state used as C4/C5/C6 counterexample base: live window with the
close-veto listener attached. -/
def c4state : SharedProcess :=
  { sp0 with window := some winLive, windowCloseListener := true }

theorem shutdown_removes_veto_before_close_witness :
    c4state.onWillShutdown.2 =
      [Effect.sendExitEff, Effect.removeCloseListenerEff,
       Effect.scheduleCloseEff]
    ∧ (∃ s2, c4state.onWillShutdown.1.runDeferredClose true =
          Except.ok (s2, [Effect.closeCallEff])
        ∧ s2.window = none ∧ s2.windowCloseListener = false) :=
  shutdown_removes_veto_before_close c4state winLive rfl rfl rfl true

/-- C5 counterexample: the claim says a second shutdown trigger always
observes a null window handle and is a no-op.  But the handle is nulled only
inside the deferred `setTimeout` callback; if the second trigger arrives
before that callback runs, the handler still sees the window, re-sends the
exit signal and schedules another close — visibly not a no-op. -/
theorem shutdown_twice_immediate_not_noop :
    c4state.onWillShutdown.1.window ≠ none
    ∧ c4state.onWillShutdown.1.onWillShutdown.2 =
        [Effect.sendExitEff, Effect.scheduleCloseEff]
    ∧ c4state.onWillShutdown.1.onWillShutdown.2 ≠ [] := by
  refine ⟨?_, ?_, ?_⟩ <;> decide

/-- C5 (amended): once the deferred close scheduled by the first shutdown
has run — which nulls the handle — a second shutdown trigger observes the
handle as `none`, changes nothing, emits nothing and raises no error. -/
theorem shutdown_twice_after_deferred_noop (s : SharedProcess)
    (w : BrowserWindowM) (hw : s.window = some w) (closeThrows : Bool) :
    ∃ s2, s.onWillShutdown.1.runDeferredClose closeThrows =
        Except.ok (s2, [Effect.closeCallEff])
      ∧ s2.window = none
      ∧ s2.onWillShutdown = (s2, []) := by
  by_cases hl : s.windowCloseListener
  · refine ⟨{ s with windowCloseListener := false, pendingClose := false, window := none }, ?_, rfl, rfl⟩
    cases closeThrows <;>
      simp [SharedProcess.onWillShutdown, hw, hl,
        SharedProcess.runDeferredClose, windowCloseCall, Except.map]
  · refine ⟨{ s with pendingClose := false, window := none }, ?_, rfl, rfl⟩
    cases closeThrows <;>
      simp [SharedProcess.onWillShutdown, hw, hl,
        SharedProcess.runDeferredClose, windowCloseCall, Except.map]

theorem shutdown_twice_after_deferred_noop_witness :
    ∃ s2, c4state.onWillShutdown.1.runDeferredClose false =
        Except.ok (s2, [Effect.closeCallEff])
      ∧ s2.window = none
      ∧ s2.onWillShutdown = (s2, []) :=
  shutdown_twice_after_deferred_noop c4state winLive rfl false

/-- C6 counterexample: the claim says a second `createWindow` call is
rejected by an explicit already-created guard.  The source has no such
guard: calling the operation twice succeeds silently, creating a second
window (the handle changes) and bumping the creation count to 2; its
return type admits no rejection at all. -/
theorem createWindow_second_call_not_rejected :
    sp0.createWindow.1.createWindow.1.createWindowCount = 2
    ∧ sp0.createWindow.1.createWindow.1.window ≠ sp0.createWindow.1.window := by
  refine ⟨?_, ?_⟩ <;> decide

/-- C6 (amended): per coordinator lifetime `createWindow` still runs at most
once, but only because its sole call site sits inside the memoized
`whenIpcReady` body; the operation itself contains no already-created
guard, so a direct second call would silently create a second host rather
than be rejected. -/
theorem createWindow_at_most_once_reachable (s : SharedProcess)
    (h : Reachable s) : s.createWindowCount ≤ 1 := by
  obtain ⟨h1, _, _, _, _⟩ := spInv_of_reachable s h
  rw [h1]
  split <;> omega

theorem createWindow_at_most_once_reachable_witness :
    c1state.createWindowCount ≤ 1 :=
  createWindow_at_most_once_reachable c1state
    (reachable_run sp0 [SPAction.access, SPAction.spawnA [], SPAction.resume]
      (Reachable.init "machine" [] envSvc0 0))

/-- `orO` is associative. -/
theorem orO_assoc (a b c : Option String) :
    orO (orO a b) c = orO a (orO b c) := by
  cases a <;> cases b <;> simp [orO]

/-- C7: Overlays passed to successive `spawn` calls before window creation
are merged with the last overlay winning on key conflicts, and the
configuration payload built at creation time carries that merged
environment; in particular after `spawn(FOO=1)` then `spawn(FOO=2)` the
payload maps FOO to "2". -/
theorem spawn_env_merge_last_wins (machineId : String) (env0 o1 o2 : EnvMap)
    (es : EnvServiceData) (logLevel : Nat) (k : String) :
    ((run (initState machineId env0 es logLevel)
        [SPAction.access, SPAction.spawnA o1, SPAction.spawnA o2,
         SPAction.resume]).1.configAtCreation.map
      (fun c => lookupEnv c.userEnv k))
      = some (orO (lookupEnv o2 k) (orO (lookupEnv o1 k) (lookupEnv env0 k)))
    ∧ ((run (initState machineId env0 es logLevel)
        [SPAction.access, SPAction.spawnA [("FOO", "1")],
         SPAction.spawnA [("FOO", "2")],
         SPAction.resume]).1.configAtCreation.map
      (fun c => lookupEnv c.userEnv "FOO")) = some (some "2") := by
  constructor
  · simp [run, step, initState, SharedProcess.whenIpcReadyAccess,
      SharedProcess.spawn, SharedProcess.resumeSpawned,
      SharedProcess.createWindow, SharedProcess.registerWindowListeners,
      lookupEnv_append, orO_assoc]
  · simp [run, step, initState, SharedProcess.whenIpcReadyAccess,
      SharedProcess.spawn, SharedProcess.resumeSpawned,
      SharedProcess.createWindow, SharedProcess.registerWindowListeners,
      lookupEnv_append, lookupEnv, orO]

theorem spawn_env_merge_last_wins_witness :
    ((run (initState "machine" [] envSvc0 0)
        [SPAction.access, SPAction.spawnA [("FOO", "1")],
         SPAction.spawnA [("FOO", "2")],
         SPAction.resume]).1.configAtCreation.map
      (fun c => lookupEnv c.userEnv "FOO")) = some (some "2") :=
  (spawn_env_merge_last_wins "machine" [] [("FOO", "1")] [("FOO", "2")]
    envSvc0 0 "FOO").2

/-- C9: Opening the readiness gate is idempotent and permanent — `open()`
applied N+1 times equals `open()` once, an opened gate stays opened over any
further operations — and when a run from a fresh barrier ends opened, every
registered waiter (before or after opening) has been released exactly once:
the release count of each id equals its registration count.  `spawn` opens
this gate. -/
theorem readiness_gate_idempotent_permanent (b : Barrier) (n : Nat)
    (ops : List BOp) (id : Nat) (s : SharedProcess) (o : EnvMap) :
    openNTimes (n + 1) b = b.openB
    ∧ (b.opened = true → (runB b ops).opened = true)
    ∧ ((runB initBarrier ops).opened = true →
        countN id (runB initBarrier ops).released = countWait id ops)
    ∧ (s.spawn o).1.barrierOpened = true := by
  refine ⟨openNTimes_succ b n, runB_opened_mono ops b, ?_, rfl⟩
  intro ho
  have hc := runB_count ops initBarrier id
  have hp := runB_opened_pending ops initBarrier (fun _ => rfl) ho
  have h0 : countN id initBarrier.pending = 0 := rfl
  have h1 : countN id initBarrier.released = 0 := rfl
  have h2 : countN id ([] : List Nat) = 0 := rfl
  rw [hp, h2, h0, h1] at hc
  omega

theorem readiness_gate_idempotent_permanent_witness :
    openNTimes 3 initBarrier.openB = initBarrier.openB.openB
    ∧ (runB initBarrier.openB [BOp.waitOp 7, BOp.openOp]).opened = true
    ∧ countN 7 (runB initBarrier [BOp.waitOp 7, BOp.openOp]).released
        = countWait 7 [BOp.waitOp 7, BOp.openOp]
    ∧ (sp0.spawn [("A", "1")]).1.barrierOpened = true := by
  have h := readiness_gate_idempotent_permanent initBarrier.openB 2
    [BOp.waitOp 7, BOp.openOp] 7 sp0 [("A", "1")]
  exact ⟨h.1, h.2.1 rfl, h.2.2.1 (by decide), h.2.2.2⟩

/-- C10: In every reachable state, a port has been posted back to a channel
requester only if the worker's `init-done` signal was observed (the handler
awaits `whenReady()` before `connect()`), and accessing `whenReady()` has no
creation side effect: it leaves the gate, the `whenIpcReady` stage, the
window and the creation count unchanged and emits nothing. -/
theorem channel_request_awaits_overall_ready (s : SharedProcess)
    (h : Reachable s) :
    (0 < s.portsPosted → s.initDoneObserved = true)
    ∧ s.whenReadyAccess.1.barrierOpened = s.barrierOpened
    ∧ s.whenReadyAccess.1.ipcStage = s.ipcStage
    ∧ s.whenReadyAccess.1.window = s.window
    ∧ s.whenReadyAccess.1.createWindowCount = s.createWindowCount
    ∧ s.whenReadyAccess.2 = [] := by
  obtain ⟨_, _, _, _, h5⟩ := spInv_of_reachable s h
  exact ⟨fun hp => h5 (Or.inr hp), rfl, rfl, rfl, rfl, rfl⟩

/-- The trace used as C10 witness: a channel request served end to end. -/
def c10trace : List SPAction :=
  [SPAction.request, SPAction.initDone, SPAction.requestReady,
   SPAction.spawnA [], SPAction.resume, SPAction.ipcReady,
   SPAction.requestConnect]

def c10state : SharedProcess := (run sp0 c10trace).1

theorem channel_request_awaits_overall_ready_witness :
    c10state.initDoneObserved = true ∧ c10state.whenReadyAccess.2 = [] := by
  have h := channel_request_awaits_overall_ready c10state
    (reachable_run sp0 c10trace (Reachable.init "machine" [] envSvc0 0))
  exact ⟨h.1 (by decide), h.2.2.2.2.2⟩
